import Mathlib

/-!
Verification development for the `odin-softioc` parameter-tree core
(`src/odin_softioc/pv_parameter_tree.py`).

The Python classes `PvParameterAccessor`, `PvBoundTree` and `PvParameterTree`
are embedded shallowly below.  Python scalar values are modelled by `PyValue`,
Python types by `PyType`.  The external world read by `on_get` callables and
mutated by `on_set` callables is an explicit state parameter `σ`; getters are
functions `σ → PyValue` and setter callbacks are functions `PyValue → σ → σ`.
The live EPICS process-variable records produced by the softioc builder are
modelled by `PvRecord`, instrumented with a ghost log of every `set` call
(value and `process` flag) so that reconciliation pushes can be counted.

All exceptions raised by the code are `ParameterTreeError` instances carrying
a message; `TreeError` tags each raise site and `TreeError.message` recovers
the exact message string where the raise site is in the repository.

The base classes `ParameterAccessor` / `ParameterTree` come from the external
`odin.adapters.parameter_tree` dependency, which is not part of this
repository; their behaviour is modelled from the specification (and pinned by
this repository's own tests where those exercise it).  Each such definition is
marked `Modelled from the spec:` in its doc comment.
-/

set_option autoImplicit false

namespace OdinSoftioc

/-- Python runtime types that occur in the parameter tree: the four
supported scalar types plus `NoneType` (the type of `None`, which arises
from default/absent values and is unsupported for PV binding). -/
inductive PyType where
  | int
  | float
  | bool
  | str
  | nonetype
deriving DecidableEq, Repr

/-- The `__name__` attribute of the corresponding Python type object,
as used for the `metadata` type field and the record-type lookup dicts. -/
def PyType.name : PyType → String
  | .int => "int"
  | .float => "float"
  | .bool => "bool"
  | .str => "str"
  | .nonetype => "NoneType"

/-- Python scalar values handled by the tree.  Floats are modelled as
rationals: no float arithmetic is performed by the code, only equality
and type inspection. -/
inductive PyValue where
  | int (n : ℤ)
  | float (q : ℚ)
  | bool (b : Bool)
  | str (s : String)
  | none
deriving DecidableEq, Repr

/-- Python `type(v)` for a scalar value. -/
def PyValue.typeOf : PyValue → PyType
  | .int _ => .int
  | .float _ => .float
  | .bool _ => .bool
  | .str _ => .str
  | .none => .nonetype

/-- Python truthiness of a scalar value (`if initial_value:` in the
accessor constructor): zero numbers, `False`, the empty string and
`None` are falsy. -/
def PyValue.truthy : PyValue → Bool
  | .int n => n ≠ 0
  | .float q => q ≠ 0
  | .bool b => b
  | .str s => s ≠ ""
  | .none => false

/-- Python `==` on the scalar values: numeric values compare across
`bool`/`int`/`float` (`True == 1 == 1.0`), all other cross-type
comparisons are unequal.  Used by `PvParameterAccessor.update` for its
`value != self._value` change test. -/
def PyValue.pyEq : PyValue → PyValue → Bool
  | .int a, .int b => a = b
  | .float a, .float b => a = b
  | .bool a, .bool b => a = b
  | .str a, .str b => a = b
  | .none, .none => true
  | .int a, .float b => (a : ℚ) = b
  | .float a, .int b => a = (b : ℚ)
  | .bool a, .int b => (if a then (1 : ℤ) else 0) = b
  | .int a, .bool b => a = (if b then (1 : ℤ) else 0)
  | .bool a, .float b => (if a then (1 : ℚ) else 0) = b
  | .float a, .bool b => a = (if b then (1 : ℚ) else 0)
  | _, _ => false

/-- Every exception raised in the parameter-tree code is a
`ParameterTreeError` carrying a message string; the constructors tag the
distinct raise sites (the spec's error taxonomy). -/
inductive TreeError where
  /-- write attempted on a non-writeable parameter (base-class `set`) -/
  | readOnly (path : String)
  /-- value not coercible to the declared type (base-class `set`) -/
  | typeMismatch (path : String) (got : String) (expected : String)
  /-- a path or batch-set key does not resolve in the tree -/
  | pathNotFound (path : String)
  /-- `PvParameterAccessor.bind`: no record kind for the declared type -/
  | unsupportedType (pvName : String) (typeName : String)
  /-- `PvParameterAccessor.__init__` with neither type nor truthy initial value -/
  | cannotCreate (name : String)
deriving DecidableEq, Repr

/-- The message carried by the `ParameterTreeError`; exact for the two
raise sites inside `pv_parameter_tree.py` and for the read-only message
pinned by `test_pv_parameter_accessor.py`. -/
def TreeError.message : TreeError → String
  | .readOnly p => "Parameter " ++ p ++ " is read-only"
  | .typeMismatch p g e =>
      "Type mismatch setting " ++ p ++ ": got " ++ g ++ " expected " ++ e
  | .pathNotFound p => "Invalid path: " ++ p
  | .unsupportedType pv t =>
      "Unable to bind PV " ++ pv ++ " with unsupported type " ++ t
  | .cannotCreate n =>
      "Cannot create parameter accessor " ++ n ++ " without type or initial value"

/-- The `PvParameterAccessor.out_record_types` class dict: record kind
for a writeable parameter, keyed by the type-name metadata. -/
def out_record_types : PyType → Option String
  | .int => some "longOut"
  | .float => some "aOut"
  | .bool => some "boolOut"
  | .str => some "longStringOut"
  | .nonetype => Option.none

/-- The `PvParameterAccessor.in_record_types` class dict: record kind
for a read-only parameter, keyed by the type-name metadata. -/
def in_record_types : PyType → Option String
  | .int => some "longIn"
  | .float => some "aIn"
  | .bool => some "boolIn"
  | .str => some "longStringIn"
  | .nonetype => Option.none

/-- A live softioc PV record created by the builder.  Modelled from the
spec: the binding runtime offers
`createRecord(kind, name, initialValue, onUpdate?)` and the handle offers
`set(value, suppressCallback)`.  `rid` is the creation serial number
assigned by the builder (record identity), `hasOnUpdate` records whether
an `on_update` callback (wired to the accessor's `_inner_set`) was
registered at creation, and `setLog` is a ghost log of every `set` call
as a `(value, process)` pair, newest first. -/
structure PvRecord where
  rid : Nat
  recordType : String
  rvalue : PyValue
  hasOnUpdate : Bool
  setLog : List (PyValue × Bool)
deriving DecidableEq, Repr

/-- The softioc builder double: it only needs to hand out fresh record
serial numbers (`records` counts the records created so far). -/
structure Builder where
  records : Nat
deriving DecidableEq, Repr

/-- The `PvParameterAccessor` object state.  `σ` is the external world
read by `on_get` and mutated by `on_set`.  Field names follow the
Python attributes; `writeable` and `ptype` are `metadata["writeable"]`
and the declared type backing `metadata["type"]`. -/
structure PvParameterAccessor (σ : Type) where
  _name : String
  _pv_name : String
  _value : PyValue
  on_get : Option (σ → PyValue)
  on_set : Option (PyValue → σ → σ)
  _pv : Option PvRecord
  ptype : PyType
  writeable : Bool

namespace PvParameterAccessor

variable {σ : Type}

/-- The `PvParameterAccessor.__init__` constructor (lines 39-91):
stores the accessors and value, then resolves the declared type from
`param_type` if supplied (type objects are always truthy), else from
`type(initial_value)` when `initial_value` is truthy, else raises
`ParameterTreeError`.  `metadata["writeable"]` is overridden to the
`writeable` argument and `metadata["type"]` to the resolved type. -/
def mkAccessor (name pv_name : String) (on_get : Option (σ → PyValue))
    (on_set : Option (PyValue → σ → σ)) (writeable : Bool)
    (initial_value : PyValue) (param_type : Option PyType) :
    Except TreeError (PvParameterAccessor σ) :=
  match param_type with
  | some t =>
      .ok ⟨name, pv_name, initial_value, on_get, on_set, Option.none, t, writeable⟩
  | Option.none =>
      if initial_value.truthy then
        .ok ⟨name, pv_name, initial_value, on_get, on_set, Option.none,
             initial_value.typeOf, writeable⟩
      else
        .error (.cannotCreate name)

/-- `PvParameterAccessor.is_external` (lines 119-121): the parameter is
externally sourced iff `on_get` is callable. -/
def is_external (a : PvParameterAccessor σ) : Bool :=
  a.on_get.isSome

/-- `PvParameterAccessor._inner_set` (lines 141-145): store the value in
the cache, then invoke `on_set` on the external world if callable. -/
def inner_set (a : PvParameterAccessor σ) (value : PyValue) (ext : σ) :
    PvParameterAccessor σ × σ :=
  ({ a with _value := value },
   match a.on_set with
   | some f => f value ext
   | Option.none => ext)

/-- The bound record's `set(value, process)` call: updates the record
value, appends to the ghost log, and — when processing is requested and
an `on_update` callback was registered at creation — invokes that
callback, which is the accessor's own `_inner_set`.  Modelled from the
spec: `liveVariableHandle.set(value, suppressCallback)`; `process=False`
suppresses the callback. -/
def pv_set (a : PvParameterAccessor σ) (value : PyValue) (process : Bool)
    (ext : σ) : PvParameterAccessor σ × σ :=
  match a._pv with
  | Option.none => (a, ext)
  | some r =>
      let a1 := { a with
        _pv := some { r with rvalue := value, setLog := (value, process) :: r.setLog } }
      if process && r.hasOnUpdate then a1.inner_set value ext else (a1, ext)

/-- `PvParameterAccessor._set` (lines 132-139): if a PV is bound, set it
(with processing, so a writeable record runs its `on_update` callback)
and additionally run `_inner_set` directly when the parameter is not
writeable (in-records have no callback); if no PV is bound, just run
`_inner_set`. -/
def _set (a : PvParameterAccessor σ) (value : PyValue) (ext : σ) :
    PvParameterAccessor σ × σ :=
  if a._pv.isSome then
    let p := a.pv_set value true ext
    if !a.writeable then p.1.inner_set value p.2 else p
  else
    a.inner_set value ext

/-- `PvParameterAccessor._get` (lines 127-130): if externally sourced,
refresh the cache from `on_get`; return the cached value. -/
def _get (a : PvParameterAccessor σ) (ext : σ) : PvParameterAccessor σ × PyValue :=
  match a.on_get with
  | some g => ({ a with _value := g ext }, g ext)
  | Option.none => (a, a._value)

/-- The public `get()` inherited from the base class.  Modelled from the
spec: since `_get` was passed to the superclass as the getter callable,
`get()` simply invokes `_get`. -/
def get (a : PvParameterAccessor σ) (ext : σ) : PvParameterAccessor σ × PyValue :=
  a._get ext

/-- Coercion of a value to a declared type, used by the public `set`.
Modelled from the spec: `set` "coerces `value` to `declaredType` (fails
with `TypeMismatchError` if not coercible)"; a value of the declared
type is unchanged and an integer is acceptable for a float parameter. -/
def coerceTo (t : PyType) (v : PyValue) : Option PyValue :=
  if v.typeOf = t then some v
  else
    match t, v with
    | .float, .int n => some (.float (n : ℚ))
    | _, _ => Option.none

/-- The public `set(value)` inherited from the base class.  Modelled
from the spec (and pinned by `test_pv_parameter_accessor.py`): if the
parameter is not writeable, raise `ParameterTreeError` naming it
("Parameter ... is read-only"); otherwise coerce the value to the
declared type (raising on mismatch) and delegate to `_set`. -/
def set (a : PvParameterAccessor σ) (value : PyValue) (ext : σ) :
    Except TreeError (PvParameterAccessor σ × σ) :=
  if !a.writeable then
    .error (.readOnly a._name)
  else
    match coerceTo a.ptype value with
    | Option.none => .error (.typeMismatch a._name value.typeOf.name a.ptype.name)
    | some v => .ok (a._set v ext)

/-- `PvParameterAccessor.bind` (lines 93-109): evaluate
`builder_kwargs = dict with initial_value from self._get()` (refreshing the
cache when externally sourced), resolve the record kind from the type
metadata in `out_record_types` when writeable (also registering
`_inner_set` as `on_update`) or `in_record_types` when not, raising
`ParameterTreeError` on a `KeyError`; then create the record through the
builder and store the handle in `self._pv`, unconditionally replacing
any existing handle. -/
def bind (a : PvParameterAccessor σ) (b : Builder) (ext : σ) :
    Except TreeError (PvParameterAccessor σ × Builder) :=
  let p := a._get ext
  match (if a.writeable then out_record_types a.ptype else in_record_types a.ptype) with
  | Option.none => .error (.unsupportedType a._pv_name a.ptype.name)
  | some rt =>
      .ok ({ p.1 with
              _pv := some ⟨b.records, rt, p.2, a.writeable, []⟩ },
           ⟨b.records + 1⟩)

/-- `PvParameterAccessor.update` (lines 111-117): when externally
sourced, fetch the current source value; if it differs (Python `!=`)
from the cached value and a PV is bound, push it into the PV with
`process=False`; finally store it in the cache. -/
def update (a : PvParameterAccessor σ) (ext : σ) : PvParameterAccessor σ :=
  match a.on_get with
  | Option.none => a
  | some g =>
      let value := g ext
      let a1 :=
        if !(value.pyEq a._value) && a._pv.isSome then
          (a.pv_set value false ext).1
        else a
      { a1 with _value := value }

end PvParameterAccessor

/-- Association-list lookup by key (first match), modelling Python dict
access on string-keyed dicts. -/
def alistFind {κ α : Type} [DecidableEq κ] (l : List (κ × α)) (k : κ) : Option α :=
  match l with
  | [] => Option.none
  | (k2, v2) :: rest => if k2 = k then some v2 else alistFind rest k

/-- Association-list insert-or-replace, modelling Python dict item
assignment: replaces in place when the key exists, else appends
(preserving insertion order). -/
def alistUpsert {κ α : Type} [DecidableEq κ] (l : List (κ × α)) (k : κ) (v : α) :
    List (κ × α) :=
  match l with
  | [] => [(k, v)]
  | (k2, v2) :: rest =>
      if k2 = k then (k, v) :: rest else (k2, v2) :: alistUpsert rest k v

/-- The base `ParameterAccessor` from `odin.adapters.parameter_tree`
(a dependency, not part of this repository).  Modelled from the spec:
it wraps either a callable getter or a stored literal value, an
optional setter, writeability and a declared type.  A callable getter
with no setter is read-only; a stored literal is writeable (its `set`
replaces the stored value). -/
structure ParameterAccessor (σ : Type) where
  path : String
  getFn : (σ → PyValue) ⊕ PyValue
  setFn : Option (PyValue → σ → σ)
  writeable : Bool
  ptype : PyType

namespace ParameterAccessor

variable {σ : Type}

/-- Whether the stored getter is callable (`callable(param._get)` as
tested by `PvBoundTree.bind`). -/
def callableGet (a : ParameterAccessor σ) : Bool :=
  a.getFn.isLeft

/-- Construction from a `(getter, setter-or-none)` pair, the tuple sugar
the tree build accepts.  Modelled from the spec: writeability is
`setter is not none` for a callable getter. -/
def ofPair (path : String) (getter : σ → PyValue) (setter : Option (PyValue → σ → σ))
    (ptype : PyType) : ParameterAccessor σ :=
  ⟨path, Sum.inl getter, setter, setter.isSome, ptype⟩

/-- The public `get()`.  Modelled from the spec: invoke the getter if
callable, else return the stored value. -/
def get (a : ParameterAccessor σ) (ext : σ) : PyValue :=
  match a.getFn with
  | Sum.inl g => g ext
  | Sum.inr v => v

/-- The public `set(value)`.  Modelled from the spec (and pinned by the
`tree.counter = 30` raise in `test_pv_parameter_tree.py`): raise
`ParameterTreeError` naming the parameter when not writeable; coerce to
the declared type; invoke the setter if callable, else replace the
stored value. -/
def set (a : ParameterAccessor σ) (value : PyValue) (ext : σ) :
    Except TreeError (ParameterAccessor σ × σ) :=
  if !a.writeable then
    .error (.readOnly a.path)
  else
    match PvParameterAccessor.coerceTo a.ptype value with
    | Option.none => .error (.typeMismatch a.path value.typeOf.name a.ptype.name)
    | some v =>
        match a.setFn with
        | some f => .ok (a, f v ext)
        | Option.none =>
            match a.getFn with
            | Sum.inr _ => .ok ({ a with getFn := Sum.inr v }, ext)
            | Sum.inl _ => .ok (a, ext)

end ParameterAccessor

/-- A parameter bound into a `PvBoundTree`: the code distinguishes the
two exact classes with `type(param) is PvParameterAccessor` and
`type(param) is ParameterAccessor`. -/
inductive BoundParam (σ : Type) where
  | pvParam (a : PvParameterAccessor σ)
  | baseParam (p : ParameterAccessor σ)

namespace BoundParam

variable {σ : Type}

/-- A bound parameter has a non-trivial get when it is a
`PvParameterAccessor` with a callable `on_get`, or a base
`ParameterAccessor` whose getter is callable rather than a stored
literal — exactly the two conditions `PvBoundTree.bind` tests. -/
def nontrivialGet : BoundParam σ → Bool
  | .pvParam a => a.is_external
  | .baseParam p => p.callableGet

end BoundParam

/-- The `PvBoundTree` node state (lines 148-200): its name, the
`bound_params` dict, the `external_params` list and the plain instance
attributes stored through `__setattr__` for names that are not bound
parameters.  (The `subtrees` list is only used by tree-level recursion
and is modelled there.) -/
structure PvBoundTree (σ : Type) where
  name : String
  bound_params : List (String × BoundParam σ)
  external_params : List String
  attrs : List (String × PyValue)

namespace PvBoundTree

variable {σ : Type}

/-- `PvBoundTree.__init__`: empty dicts and lists. -/
def mkEmpty (name : String) : PvBoundTree σ :=
  ⟨name, [], [], []⟩

/-- `PvBoundTree.bind` (lines 160-169): store the parameter in
`bound_params`, then append the name to `external_params` when the
parameter is exactly a `PvParameterAccessor` and `is_external`, or
exactly a `ParameterAccessor` with a callable getter. -/
def bind (t : PvBoundTree σ) (name : String) (param : BoundParam σ) :
    PvBoundTree σ :=
  let t1 := { t with bound_params := alistUpsert t.bound_params name param }
  match param with
  | .pvParam a =>
      if a.is_external then
        { t1 with external_params := t1.external_params ++ [name] }
      else t1
  | .baseParam p =>
      if p.callableGet then
        { t1 with external_params := t1.external_params ++ [name] }
      else t1

/-- Fold `PvBoundTree.bind` over a list of `(name, param)` pairs. -/
def bindList (t : PvBoundTree σ) (bs : List (String × BoundParam σ)) :
    PvBoundTree σ :=
  bs.foldl (fun t2 p => t2.bind p.1 p.2) t

/-- `PvBoundTree.update` (lines 171-176): when the name is in
`external_params` and the bound parameter is exactly a
`PvParameterAccessor`, run its reconciliation `update`. -/
def update (t : PvBoundTree σ) (name : String) (ext : σ) : PvBoundTree σ :=
  if name ∈ t.external_params then
    match alistFind t.bound_params name with
    | some (.pvParam a) =>
        { t with bound_params := alistUpsert t.bound_params name (.pvParam (a.update ext)) }
    | _ => t
  else t

/-- `PvBoundTree.__getattribute__` (lines 178-187): a name present in
`bound_params` resolves to `bound_params[name].get()` (which may refresh
the accessor's cached value); any other name resolves to the ordinary
instance attribute when present. -/
def getattr (t : PvBoundTree σ) (name : String) (ext : σ) :
    Option (PvBoundTree σ × PyValue) :=
  match alistFind t.bound_params name with
  | some (.pvParam a) =>
      let p := a.get ext
      some ({ t with bound_params := alistUpsert t.bound_params name (.pvParam p.1) }, p.2)
  | some (.baseParam p) => some (t, p.get ext)
  | Option.none => (alistFind t.attrs name).map (fun v => (t, v))

/-- `PvBoundTree.__setattr__` (lines 189-200): a name present in
`bound_params` routes a `PvParameterAccessor` through `_set` (the
internal path, no writeability check) and a base `ParameterAccessor`
through its public `set` (which raises for read-only parameters); any
other name is set as an ordinary instance attribute. -/
def setattr (t : PvBoundTree σ) (name : String) (value : PyValue) (ext : σ) :
    Except TreeError (PvBoundTree σ × σ) :=
  match alistFind t.bound_params name with
  | some (.pvParam a) =>
      let p := a._set value ext
      .ok ({ t with bound_params := alistUpsert t.bound_params name (.pvParam p.1) }, p.2)
  | some (.baseParam p) =>
      match p.set value ext with
      | .error e => .error e
      | .ok (p2, ext2) =>
          .ok ({ t with bound_params := alistUpsert t.bound_params name (.baseParam p2) }, ext2)
  | Option.none => .ok ({ t with attrs := alistUpsert t.attrs name value }, ext)

end PvBoundTree

/-!
Tree level.  `PvParameterTree` composes the odin base `ParameterTree`
(which keeps the declarative spec in `self._tree`, with accessor objects
at accessor leaves and bare scalar values at constant leaves) with a
graph of `PvBoundTree` nodes built by `_bind_tree` (lines 244-279).
`_bind_tree` binds the very same accessor objects into the node
`bound_params` dicts, so the path surface and the attribute surface
share each accessor; a bare scalar, by contrast, is copied into a plain
node attribute by `setattr(tree, path[-1], node)` (line 277) while
`self._tree` keeps its own copy.

The embedding makes the shared objects explicit with a store: `SpecNode`
is the immutable tree shape in which accessor leaves hold a store id and
scalar leaves hold their build-time value; `TreeState.store` maps ids to
the single mutable accessor object both surfaces alias.  The mutable
scalar copies are two overlays over the build-time values: `pathVals`
(the copy inside the odin `_tree` dict, mutated by path-based set) and
`attrVals` (the plain attribute on the bound node, mutated by
attribute-style writes), both keyed by full path.
-/

mutual

/-- A node of the built tree shape: an accessor leaf (store id), a
scalar constant leaf (build-time value), or a subtree. -/
inductive SpecNode : Type where
  | leafAcc (id : Nat)
  | leafScalar (v : PyValue)
  | sub (children : SpecChildren)
deriving DecidableEq, Repr

/-- The ordered children of a subtree node. -/
inductive SpecChildren : Type where
  | nil
  | cons (name : String) (child : SpecNode) (rest : SpecChildren)
deriving DecidableEq, Repr

end

namespace SpecChildren

/-- Look up a child by name in declaration order. -/
def find : SpecChildren → String → Option SpecNode
  | .nil, _ => Option.none
  | .cons k c rest, name => if k = name then some c else find rest name

end SpecChildren

namespace SpecNode

/-- Walk a `/`-split path down the tree shape. -/
def resolve : SpecNode → List String → Option SpecNode
  | n, [] => some n
  | .sub cs, k :: rest =>
      match cs.find k with
      | some c => c.resolve rest
      | Option.none => Option.none
  | _, _ :: _ => Option.none

end SpecNode

/-- The runtime state of a built `PvParameterTree`: the immutable shape,
the two scalar overlays, the shared accessor store and the external
world. -/
structure TreeState (σ : Type) where
  spec : SpecNode
  pathVals : List (List String × PyValue)
  attrVals : List (List String × PyValue)
  store : List (Nat × BoundParam σ)
  ext : σ

namespace TreeState

variable {σ : Type}

/-- A freshly built tree: both scalar overlays still hold the build-time
values (empty overlays). -/
def build (spec : SpecNode) (store : List (Nat × BoundParam σ)) (ext : σ) :
    TreeState σ :=
  ⟨spec, [], [], store, ext⟩

/-- Read the value of an accessor in the store via its public `get`,
returning the value and the updated state (a `PvParameterAccessor` get
refreshes its cached value). -/
def storeGet (s : TreeState σ) (id : Nat) : Option (PyValue × TreeState σ) :=
  match alistFind s.store id with
  | some (.pvParam a) =>
      let p := a.get s.ext
      some (p.2, { s with store := alistUpsert s.store id (.pvParam p.1) })
  | some (.baseParam p) => some (p.get s.ext, s)
  | Option.none => Option.none

/-- Attribute-surface chained read of a leaf, `root.seg1.....segN`:
each intermediate segment resolves to a subtree node and the final
segment resolves through `PvBoundTree.__getattribute__` — a bound
accessor is read through its `get` (shared store), a scalar is read from
the node's plain attribute (the `attrVals` overlay over the build-time
value). -/
def attrGetLeaf (s : TreeState σ) (path : List String) :
    Option (PyValue × TreeState σ) :=
  match s.spec.resolve path with
  | some (.leafAcc id) => s.storeGet id
  | some (.leafScalar v) =>
      some ((alistFind s.attrVals path).getD v, s)
  | _ => Option.none

/-- Attribute-surface write of a leaf through
`PvBoundTree.__setattr__`: a bound `PvParameterAccessor` goes through
`_set` (internal path, no writeability check), a bound base
`ParameterAccessor` goes through its public `set`, and a scalar leaf is
an ordinary instance-attribute assignment on the node (the `attrVals`
overlay).  Returns `none` when the path does not lead to a leaf. -/
def attrSetLeaf (s : TreeState σ) (path : List String) (value : PyValue) :
    Option (Except TreeError (TreeState σ)) :=
  match s.spec.resolve path with
  | some (.leafAcc id) =>
      match alistFind s.store id with
      | some (.pvParam a) =>
          let p := a._set value s.ext
          some (.ok { s with store := alistUpsert s.store id (.pvParam p.1), ext := p.2 })
      | some (.baseParam p) =>
          match p.set value s.ext with
          | .error e => some (.error e)
          | .ok (p2, ext2) =>
              some (.ok { s with store := alistUpsert s.store id (.baseParam p2), ext := ext2 })
      | Option.none => Option.none
  | some (.leafScalar _) =>
      some (.ok { s with attrVals := alistUpsert s.attrVals path value })
  | _ => Option.none

/-- Path-surface read of a leaf.  Modelled from the spec:
`get(path)` walks the odin `_tree` and returns a one-entry record keyed
by the leaf name; an accessor leaf is read through its `get` (shared
store), a scalar leaf from the `_tree` dict's own copy (the `pathVals`
overlay over the build-time value). -/
def pathGetLeaf (s : TreeState σ) (path : List String) :
    Option (String × PyValue × TreeState σ) :=
  match path.getLast? with
  | Option.none => Option.none
  | some leaf =>
      match s.spec.resolve path with
      | some (.leafAcc id) =>
          (s.storeGet id).map (fun p => (leaf, p.1, p.2))
      | some (.leafScalar v) =>
          some (leaf, (alistFind s.pathVals path).getD v, s)
      | _ => Option.none

/-- One assignment of a batch `set(path, data)`, applied at key `k`
under the subtree at `base`.  Modelled from the spec: an unknown key
fails with the path-not-found error; an accessor leaf goes through the
normal write contract (its public `set`, so read-only and type-mismatch
errors propagate per key); a scalar leaf is replaced in the `_tree` dict
(the `pathVals` overlay) after a type check against the current value. -/
def applyAssign (s : TreeState σ) (base : List String) (k : String) (value : PyValue) :
    Except TreeError (TreeState σ) :=
  match s.spec.resolve (base ++ [k]) with
  | Option.none => .error (.pathNotFound k)
  | some (.sub _) => .error (.typeMismatch k value.typeOf.name "dict")
  | some (.leafAcc id) =>
      match alistFind s.store id with
      | some (.pvParam a) =>
          match a.set value s.ext with
          | .error e => .error e
          | .ok (a2, ext2) =>
              .ok { s with store := alistUpsert s.store id (.pvParam a2), ext := ext2 }
      | some (.baseParam p) =>
          match p.set value s.ext with
          | .error e => .error e
          | .ok (p2, ext2) =>
              .ok { s with store := alistUpsert s.store id (.baseParam p2), ext := ext2 }
      | Option.none => .error (.pathNotFound k)
  | some (.leafScalar w) =>
      let cur := (alistFind s.pathVals (base ++ [k])).getD w
      if value.typeOf = cur.typeOf then
        .ok { s with pathVals := alistUpsert s.pathVals (base ++ [k]) value }
      else
        .error (.typeMismatch k value.typeOf.name cur.typeOf.name)

/-- Batch `set(path, data)`.  Modelled from the spec: the assignments
are applied in the declared order of `data`; the first failing
assignment aborts the remaining ones, and the mutations already applied
are kept (the returned state), with the error reported alongside. -/
def setBatch (s : TreeState σ) (base : List String) (data : List (String × PyValue)) :
    TreeState σ × Option TreeError :=
  match data with
  | [] => (s, Option.none)
  | (k, v) :: rest =>
      match s.applyAssign base k v with
      | .error e => (s, some e)
      | .ok s2 => s2.setBatch base rest

end TreeState

/-! Helper lemmas. -/

/-- Python equality is reflexive on scalar values. -/
theorem PyValue.pyEq_refl (v : PyValue) : v.pyEq v = true := by
  cases v <;> simp [PyValue.pyEq]

/-- Lookup after upsert at the same key. -/
theorem alistFind_upsert_self {κ α : Type} [DecidableEq κ]
    (l : List (κ × α)) (k : κ) (v : α) : alistFind (alistUpsert l k v) k = some v := by
  induction l with
  | nil => simp [alistUpsert, alistFind]
  | cons hd tl ih =>
      by_cases h : hd.1 = k
      · simp [alistUpsert, alistFind, h]
      · simp [alistUpsert, alistFind, h, ih]

/-- Lookup after upsert at a different key. -/
theorem alistFind_upsert_ne {κ α : Type} [DecidableEq κ]
    (l : List (κ × α)) (k k2 : κ) (v : α) (h : k2 ≠ k) :
    alistFind (alistUpsert l k v) k2 = alistFind l k2 := by
  have hk2 : ¬(k = k2) := fun h2 => h h2.symm
  induction l with
  | nil => simp [alistUpsert, alistFind, hk2]
  | cons hd tl ih =>
      by_cases hh : hd.1 = k
      · simp only [alistUpsert, hh, if_true, alistFind, hk2, if_false]
      · simp only [alistUpsert, hh, if_false]
        by_cases hk : hd.1 = k2 <;> simp [alistFind, hk, ih]

/-! Theorems for the claims. -/

/-- C10: constructing a `PvParameterAccessor` with no explicit
`param_type` raises `ParameterTreeError` ("Cannot create parameter
accessor ... without type or initial value") exactly when the supplied
`initial_value` is falsy (`0`, `0.0`, `False`, `""` or `None`), because
the `elif initial_value:` truthiness test rejects legitimate falsy
initial values; when the initial value is truthy, the type is inferred
from it. -/
theorem claim_C10 (σ : Type) (name pv_name : String) (og : Option (σ → PyValue))
    (os : Option (PyValue → σ → σ)) (w : Bool) (v : PyValue) :
    (v.truthy = false →
      PvParameterAccessor.mkAccessor name pv_name og os w v Option.none =
        .error (.cannotCreate name) ∧
      (TreeError.cannotCreate name).message =
        "Cannot create parameter accessor " ++ name ++ " without type or initial value") ∧
    (v.truthy = true →
      PvParameterAccessor.mkAccessor name pv_name og os w v Option.none =
        .ok ⟨name, pv_name, v, og, os, Option.none, v.typeOf, w⟩) := by
  constructor
  · intro h
    exact ⟨by simp [PvParameterAccessor.mkAccessor, h], rfl⟩
  · intro h
    simp [PvParameterAccessor.mkAccessor, h]

/-- Witness for C10 at the concrete falsy initial value `0`. -/
theorem claim_C10_witness :
    PvParameterAccessor.mkAccessor (σ := Unit) "p" "P" Option.none Option.none true
      (.int 0) Option.none = .error (.cannotCreate "p") :=
  ((claim_C10 Unit "p" "P" Option.none Option.none true (.int 0)).1 rfl).1

/-- C3: when `on_get` is callable, every `get` invokes it, stores its
result in the cached value and returns that result (read-through, no
staleness); when `on_get` is absent, `get` returns the cached value and
leaves the accessor unchanged. -/
theorem claim_C3 (σ : Type) (a : PvParameterAccessor σ) (ext : σ) :
    (∀ g, a.on_get = some g →
      a.get ext = ({ a with _value := g ext }, g ext)) ∧
    (a.on_get = Option.none → a.get ext = (a, a._value)) := by
  constructor
  · intro g h
    simp [PvParameterAccessor.get, PvParameterAccessor._get, h]
  · intro h
    simp [PvParameterAccessor.get, PvParameterAccessor._get, h]

/-- Witness for C3: a concrete externally-sourced accessor reads the
current source value (7) through `get` and caches it. -/
theorem claim_C3_witness :
    PvParameterAccessor.get (σ := PyValue)
      ⟨"c", "C", .int 0, some (fun e => e), Option.none, Option.none, .int, false⟩
      (.int 7) =
    (⟨"c", "C", .int 7, some (fun e => e), Option.none, Option.none, .int, false⟩, .int 7) :=
  (claim_C3 PyValue
    ⟨"c", "C", .int 0, some (fun e => e), Option.none, Option.none, .int, false⟩
    (.int 7)).1 (fun e => e) rfl

/-- C2: for a bound externally-sourced accessor, `update` pushes the
freshly fetched source value into the live PV record — with
`process=False`, i.e. suppressing the write callback — exactly when that
value differs (Python `!=`) from the last recorded value, and records it;
when the value is unchanged no push happens; consequently a second
`update` against an unchanged source performs zero pushes (the state is
already a fixed point). -/
theorem claim_C2 (σ : Type) (a : PvParameterAccessor σ) (ext : σ)
    (g : σ → PyValue) (r : PvRecord)
    (hg : a.on_get = some g) (hr : a._pv = some r) :
    ((g ext).pyEq a._value = false →
      a.update ext =
        { a with
            _value := g ext,
            _pv := some { r with rvalue := g ext, setLog := (g ext, false) :: r.setLog } }) ∧
    ((g ext).pyEq a._value = true →
      a.update ext = { a with _value := g ext }) ∧
    (a.update ext).update ext = a.update ext := by
  refine ⟨?_, ?_, ?_⟩
  · intro h
    simp [PvParameterAccessor.update, PvParameterAccessor.pv_set, hg, hr, h]
  · intro h
    simp [PvParameterAccessor.update, hg, h]
  · by_cases h : (g ext).pyEq a._value = true
    · simp [PvParameterAccessor.update, hg, h, PyValue.pyEq_refl]
    · simp only [Bool.not_eq_true] at h
      simp [PvParameterAccessor.update, PvParameterAccessor.pv_set, hg, hr, h,
        PyValue.pyEq_refl]

/-- Witness for C2: a concrete bound external accessor whose source
moved from 1 to 5 pushes (5, process=False) into the record log. -/
theorem claim_C2_witness :
    PvParameterAccessor.update (σ := PyValue)
      ⟨"c", "C", .int 1, some (fun e => e), Option.none,
        some ⟨0, "longIn", .int 1, false, []⟩, .int, false⟩
      (.int 5) =
    ⟨"c", "C", .int 5, some (fun e => e), Option.none,
      some ⟨0, "longIn", .int 5, false, [(.int 5, false)]⟩, .int, false⟩ :=
  (claim_C2 PyValue
    ⟨"c", "C", .int 1, some (fun e => e), Option.none,
      some ⟨0, "longIn", .int 1, false, []⟩, .int, false⟩
    (.int 5) (fun e => e) ⟨0, "longIn", .int 1, false, []⟩ rfl rfl).1 rfl

/-- C6: `bind` resolves the record kind from the declared type and
writeability through the two class dicts — the four supported types
crossed with the two writeability states give the eight pairwise
distinct record kinds — and creates the live record with the accessor's
current value (`self._get()`) as initial value; a declared type outside
the four (here `NoneType`) fails with the `ParameterTreeError`
"Unable to bind PV ... with unsupported type ..." naming the PV. -/
theorem claim_C6 :
    (out_record_types .int = some "longOut" ∧ out_record_types .float = some "aOut" ∧
     out_record_types .bool = some "boolOut" ∧ out_record_types .str = some "longStringOut" ∧
     in_record_types .int = some "longIn" ∧ in_record_types .float = some "aIn" ∧
     in_record_types .bool = some "boolIn" ∧ in_record_types .str = some "longStringIn" ∧
     List.Nodup ["longOut", "aOut", "boolOut", "longStringOut",
                 "longIn", "aIn", "boolIn", "longStringIn"]) ∧
    (∀ (σ : Type) (a : PvParameterAccessor σ) (b : Builder) (ext : σ) (rt : String),
      (if a.writeable then out_record_types a.ptype else in_record_types a.ptype) = some rt →
      a.bind b ext = .ok ({ (a._get ext).1 with
          _pv := some ⟨b.records, rt, (a._get ext).2, a.writeable, []⟩ },
        ⟨b.records + 1⟩)) ∧
    (∀ (σ : Type) (a : PvParameterAccessor σ) (b : Builder) (ext : σ),
      a.ptype = .nonetype →
      a.bind b ext = .error (.unsupportedType a._pv_name "NoneType")) := by
  refine ⟨⟨rfl, rfl, rfl, rfl, rfl, rfl, rfl, rfl, by decide⟩, ?_, ?_⟩
  · intro σ a b ext rt h
    simp [PvParameterAccessor.bind, h]
  · intro σ a b ext h
    cases hw : a.writeable <;>
      simp [PvParameterAccessor.bind, h, hw, out_record_types, in_record_types, PyType.name]

/-- Witness for C6: binding a concrete accessor of declared type
`NoneType` fails naming the PV. -/
theorem claim_C6_witness :
    PvParameterAccessor.bind (σ := Unit)
      ⟨"p", "P", PyValue.none, Option.none, Option.none, Option.none, .nonetype, false⟩
      ⟨0⟩ () = .error (.unsupportedType "P" "NoneType") :=
  claim_C6.2.2 Unit
    ⟨"p", "P", PyValue.none, Option.none, Option.none, Option.none, .nonetype, false⟩
    ⟨0⟩ () rfl

/-- C5 is refuted: `bind` has no double-bind guard.  On a concrete
read-only int accessor already holding the record handle created by a
first `bind` (record serial 0), a second `bind` succeeds rather than
fails, asks the builder for a second record (serial 1, builder count 2)
and replaces the stored handle with the new one. -/
theorem claim_C5_counterexample :
    PvParameterAccessor.bind (σ := Unit)
      ⟨"p", "P", .int 5, Option.none, Option.none, Option.none, .int, false⟩ ⟨0⟩ () =
      .ok (⟨"p", "P", .int 5, Option.none, Option.none,
            some ⟨0, "longIn", .int 5, false, []⟩, .int, false⟩, ⟨1⟩) ∧
    PvParameterAccessor.bind (σ := Unit)
      ⟨"p", "P", .int 5, Option.none, Option.none,
        some ⟨0, "longIn", .int 5, false, []⟩, .int, false⟩ ⟨1⟩ () =
      .ok (⟨"p", "P", .int 5, Option.none, Option.none,
            some ⟨1, "longIn", .int 5, false, []⟩, .int, false⟩, ⟨2⟩) :=
  ⟨rfl, rfl⟩

/-- C5 amended: `bind` never checks for an existing handle — called on
an already-bound accessor with a supported declared type it succeeds
again, creates a fresh live record through the builder (the next serial
number, incrementing the builder's record count) and overwrites the
stored handle with the new one.  At most one handle is *stored* at a
time only because the assignment replaces it; the uniqueness guard
claimed by the spec does not exist. -/
theorem claim_C5_amended (σ : Type) (a : PvParameterAccessor σ) (b : Builder)
    (ext : σ) (r : PvRecord) (rt : String) (_hbound : a._pv = some r)
    (hrt : (if a.writeable then out_record_types a.ptype else in_record_types a.ptype) = some rt) :
    a.bind b ext = .ok ({ (a._get ext).1 with
        _pv := some ⟨b.records, rt, (a._get ext).2, a.writeable, []⟩ },
      ⟨b.records + 1⟩) := by
  simp [PvParameterAccessor.bind, hrt]

/-- Witness for the amended C5 at the concrete second bind of the
counterexample accessor. -/
theorem claim_C5_amended_witness :
    PvParameterAccessor.bind (σ := Unit)
      ⟨"p", "P", .int 5, Option.none, Option.none,
        some ⟨0, "longIn", .int 5, false, []⟩, .int, false⟩ ⟨1⟩ () =
      .ok (⟨"p", "P", .int 5, Option.none, Option.none,
            some ⟨1, "longIn", .int 5, false, []⟩, .int, false⟩, ⟨2⟩) :=
  claim_C5_amended Unit
    ⟨"p", "P", .int 5, Option.none, Option.none,
      some ⟨0, "longIn", .int 5, false, []⟩, .int, false⟩ ⟨1⟩ ()
    ⟨0, "longIn", .int 5, false, []⟩ "longIn" rfl rfl

/-- C4: on a writeable accessor, an externally-initiated `set(v)`
followed by `get()` returns `v` coerced to the declared type.  Part one:
with no `on_get`, unbound — the coerced value is cached and `get`
returns it (an `on_set` callback, if any, only affects external state).
Part two: when an `on_set` callback and an externally-sourced `on_get`
are supplied, `set(v)` hands the coerced value to the callback and a
subsequent `get()` reads back the state the callback produced, not the
raw input.  Part three: on an accessor bound as writeable (its record
carries the `_inner_set` write callback), `set` routes through the live
variable — the record logs a processed set of the coerced value — and
the callback stores it, so `get()` returns it. -/
theorem claim_C4 :
    (∀ (σ : Type) (a : PvParameterAccessor σ) (ext : σ) (v v2 : PyValue),
      a.writeable = true → a.on_get = Option.none → a._pv = Option.none →
      PvParameterAccessor.coerceTo a.ptype v = some v2 →
      ∀ a2 ext2, a.set v ext = .ok (a2, ext2) → a2.get ext2 = (a2, v2)) ∧
    (∀ (σ : Type) (a : PvParameterAccessor σ) (ext : σ) (v v2 : PyValue)
      (g : σ → PyValue) (cb : PyValue → σ → σ),
      a.writeable = true → a.on_get = some g → a.on_set = some cb →
      a._pv = Option.none →
      PvParameterAccessor.coerceTo a.ptype v = some v2 →
      ∀ a2 ext2, a.set v ext = .ok (a2, ext2) →
        ext2 = cb v2 ext ∧ (a2.get ext2).2 = g (cb v2 ext)) ∧
    (∀ (σ : Type) (a : PvParameterAccessor σ) (ext : σ) (v v2 : PyValue)
      (r : PvRecord),
      a.writeable = true → a.on_get = Option.none → a._pv = some r →
      r.hasOnUpdate = true →
      PvParameterAccessor.coerceTo a.ptype v = some v2 →
      ∀ a2 ext2, a.set v ext = .ok (a2, ext2) →
        a2.get ext2 = (a2, v2) ∧
        a2._pv = some { r with rvalue := v2, setLog := (v2, true) :: r.setLog }) := by
  refine ⟨?_, ?_, ?_⟩
  · intro σ a ext v v2 hw hg hpv hc a2 ext2 hset
    simp [PvParameterAccessor.set, hw, hc, PvParameterAccessor._set, hpv,
      PvParameterAccessor.inner_set] at hset
    obtain ⟨ha2, -⟩ := hset
    simp [PvParameterAccessor.get, PvParameterAccessor._get, ← ha2, hg]
  · intro σ a ext v v2 g cb hw hg hs hpv hc a2 ext2 hset
    simp [PvParameterAccessor.set, hw, hc, PvParameterAccessor._set, hpv,
      PvParameterAccessor.inner_set, hs] at hset
    obtain ⟨ha2, hext2⟩ := hset
    refine ⟨hext2.symm, ?_⟩
    simp [PvParameterAccessor.get, PvParameterAccessor._get, ← ha2, hg, hext2]
  · intro σ a ext v v2 r hw hg hpv hcb hc a2 ext2 hset
    simp [PvParameterAccessor.set, hw, hc, PvParameterAccessor._set, hpv,
      PvParameterAccessor.pv_set, hcb, PvParameterAccessor.inner_set] at hset
    obtain ⟨ha2, -⟩ := hset
    constructor
    · simp [PvParameterAccessor.get, PvParameterAccessor._get, ← ha2, hg]
    · simp [← ha2, hcb]

/-- Witness for C4 at a concrete unbound writeable int accessor:
`set 5` then `get` returns 5. -/
theorem claim_C4_witness :
    PvParameterAccessor.get (σ := Unit)
      ⟨"w", "W", .int 5, Option.none, Option.none, Option.none, .int, true⟩ () =
    (⟨"w", "W", .int 5, Option.none, Option.none, Option.none, .int, true⟩, .int 5) :=
  claim_C4.1 Unit
    ⟨"w", "W", .int 1, Option.none, Option.none, Option.none, .int, true⟩
    () (.int 5) (.int 5) rfl rfl rfl rfl
    ⟨"w", "W", .int 5, Option.none, Option.none, Option.none, .int, true⟩ () rfl

/-- C1 is refuted on its attribute-write branch: on a concrete bound
tree holding the non-writeable parameter `p` (cached value 1), the
attribute-style write `tree.p = 2` does not raise — `__setattr__`
routes a `PvParameterAccessor` through `_set`, which has no
writeability check — and the cached value becomes 2. -/
theorem claim_C1_counterexample :
    PvBoundTree.setattr (σ := Unit)
      (PvBoundTree.bind (PvBoundTree.mkEmpty "/") "p"
        (.pvParam ⟨"p", "P", .int 1, Option.none, Option.none, Option.none, .int, false⟩))
      "p" (.int 2) () =
    .ok (⟨"/",
          [("p", .pvParam ⟨"p", "P", .int 2, Option.none, Option.none, Option.none, .int, false⟩)],
          [], []⟩, ()) :=
  rfl

/-- C1 amended: for a parameter with `writeable=false`, the accessor's
public `set` and a path-based batch assignment both fail with the
read-only `ParameterTreeError` naming the parameter (the raise happens
before any mutation, so the cached value is untouched), and the
internal push `_inner_set` stores the value with no check; but an
attribute-style write on the bound tree routes a `PvParameterAccessor`
through `_set` — the internal path — so it succeeds without any
writeability check (only plain `ParameterAccessor` children get the
public-`set` check on that surface). -/
theorem claim_C1_amended :
    (∀ (σ : Type) (a : PvParameterAccessor σ) (v : PyValue) (ext : σ),
      a.writeable = false → a.set v ext = .error (.readOnly a._name)) ∧
    (∀ (σ : Type) (s : TreeState σ) (base : List String) (k : String)
      (id : Nat) (a : PvParameterAccessor σ) (v : PyValue),
      s.spec.resolve (base ++ [k]) = some (.leafAcc id) →
      alistFind s.store id = some (.pvParam a) → a.writeable = false →
      s.applyAssign base k v = .error (.readOnly a._name)) ∧
    (∀ (σ : Type) (a : PvParameterAccessor σ) (v : PyValue) (ext : σ),
      ((a.inner_set v ext).1)._value = v) ∧
    (∀ (σ : Type) (t : PvBoundTree σ) (name : String)
      (a : PvParameterAccessor σ) (v : PyValue) (ext : σ),
      alistFind t.bound_params name = some (.pvParam a) →
      ∃ t2 ext2, t.setattr name v ext = .ok (t2, ext2) ∧
        alistFind t2.bound_params name = some (.pvParam (a._set v ext).1)) := by
  refine ⟨?_, ?_, ?_, ?_⟩
  · intro σ a v ext hw
    simp [PvParameterAccessor.set, hw]
  · intro σ s base k id a v hres hfind hw
    simp [TreeState.applyAssign, hres, hfind, PvParameterAccessor.set, hw]
  · intro σ a v ext
    simp [PvParameterAccessor.inner_set]
  · intro σ t name a v ext hfind
    refine ⟨{ t with bound_params :=
                alistUpsert t.bound_params name (.pvParam (a._set v ext).1) },
            (a._set v ext).2, ?_, ?_⟩
    · simp [PvBoundTree.setattr, hfind]
    · exact alistFind_upsert_self t.bound_params name _

/-- Witness for the amended C1: the public `set` on the concrete
read-only parameter of the counterexample fails naming it. -/
theorem claim_C1_amended_witness :
    PvParameterAccessor.set (σ := Unit)
      ⟨"p", "P", .int 1, Option.none, Option.none, Option.none, .int, false⟩
      (.int 2) () = .error (.readOnly "p") :=
  claim_C1_amended.1 Unit
    ⟨"p", "P", .int 1, Option.none, Option.none, Option.none, .int, false⟩
    (.int 2) () rfl

/-- `PvBoundTree.bind` in one equation: upsert into `bound_params` and
append the name to `external_params` exactly when the parameter has a
non-trivial get. -/
theorem PvBoundTree.bind_eq (σ : Type) (t : PvBoundTree σ) (name : String)
    (param : BoundParam σ) :
    t.bind name param =
      { t with
          bound_params := alistUpsert t.bound_params name param,
          external_params :=
            t.external_params ++ (if param.nontrivialGet then [name] else []) } := by
  cases param with
  | pvParam a =>
      cases h : a.is_external <;>
        simp [PvBoundTree.bind, BoundParam.nontrivialGet, h]
  | baseParam p =>
      cases h : p.callableGet <;>
        simp [PvBoundTree.bind, BoundParam.nontrivialGet, h]

/-- Invariant carried by `bindList`: starting from a node whose
`external_params` are exactly the names of its non-trivially-readable
bound parameters, binding a list of fresh, pairwise-distinct names
preserves that exactness. -/
theorem PvBoundTree.bindList_exact (σ : Type) (bs : List (String × BoundParam σ)) :
    ∀ (t : PvBoundTree σ),
      (∀ n, n ∈ t.external_params ↔
        ∃ p, alistFind t.bound_params n = some p ∧ p.nontrivialGet = true) →
      (∀ q ∈ bs, alistFind t.bound_params q.1 = Option.none) →
      (bs.map Prod.fst).Nodup →
      ∀ n, n ∈ (t.bindList bs).external_params ↔
        ∃ p, alistFind (t.bindList bs).bound_params n = some p ∧
          p.nontrivialGet = true := by
  induction bs with
  | nil => intro t hinv _ _; exact hinv
  | cons q rest ih =>
      intro t hinv hfresh hnodup n
      have hstep : t.bindList (q :: rest) = (t.bind q.1 q.2).bindList rest := rfl
      rw [hstep]
      refine ih (t.bind q.1 q.2) ?_ ?_ ?_ n
      · intro m
        rw [PvBoundTree.bind_eq]
        constructor
        · intro hm
          rcases List.mem_append.mp hm with hm | hm
          · obtain ⟨p, hp, hnt⟩ := (hinv m).mp hm
            have hmq : m ≠ q.1 := by
              intro he
              rw [he] at hp
              rw [hfresh q (List.mem_cons_self q rest)] at hp
              exact Option.noConfusion hp
            exact ⟨p, by rw [alistFind_upsert_ne _ _ _ _ hmq]; exact hp, hnt⟩
          · by_cases hnt : q.2.nontrivialGet = true
            · simp only [hnt, if_true, List.mem_singleton] at hm
              subst hm
              exact ⟨q.2, alistFind_upsert_self _ _ _, hnt⟩
            · simp only [Bool.not_eq_true] at hnt
              simp [hnt] at hm
        · rintro ⟨p, hp, hnt⟩
          by_cases hmq : m = q.1
          · subst hmq
            rw [alistFind_upsert_self] at hp
            obtain rfl : q.2 = p := Option.some.inj hp
            simp [hnt]
          · rw [alistFind_upsert_ne _ _ _ _ hmq] at hp
            exact List.mem_append_left _ ((hinv m).mpr ⟨p, hp, hnt⟩)
      · intro q2 hq2
        rw [PvBoundTree.bind_eq]
        have hne : q2.1 ≠ q.1 := by
          intro he
          have : q.1 ∈ rest.map Prod.fst := he ▸ List.mem_map_of_mem Prod.fst hq2
          exact (List.nodup_cons.mp hnodup).1 this
        show alistFind (alistUpsert t.bound_params q.1 q.2) q2.1 = Option.none
        rw [alistFind_upsert_ne _ _ _ _ hne]
        exact hfresh q2 (List.mem_cons_of_mem q hq2)
      · exact (List.nodup_cons.mp hnodup).2

/-- C9 is refuted for arbitrary bind sequences: binding `x` as an
externally-sourced PV parameter and then rebinding `x` as a plain
internal PV parameter leaves the stale name in `external_params`
(`["x"]`) although the parameter now bound under `x` has a trivial get. -/
theorem claim_C9_counterexample :
    ((PvBoundTree.bindList (σ := Unit) (PvBoundTree.mkEmpty "/")
        [("x", .pvParam ⟨"x", "X", PyValue.none, some (fun _ => .int 5),
            Option.none, Option.none, .int, false⟩),
         ("x", .pvParam ⟨"x", "X", .int 0, Option.none, Option.none,
            Option.none, .int, false⟩)]).external_params = ["x"]) ∧
    (alistFind (PvBoundTree.bindList (σ := Unit) (PvBoundTree.mkEmpty "/")
        [("x", .pvParam ⟨"x", "X", PyValue.none, some (fun _ => .int 5),
            Option.none, Option.none, .int, false⟩),
         ("x", .pvParam ⟨"x", "X", .int 0, Option.none, Option.none,
            Option.none, .int, false⟩)]).bound_params "x" =
      some (.pvParam ⟨"x", "X", .int 0, Option.none, Option.none,
        Option.none, .int, false⟩)) ∧
    BoundParam.nontrivialGet (σ := Unit)
      (.pvParam ⟨"x", "X", .int 0, Option.none, Option.none,
        Option.none, .int, false⟩) = false :=
  ⟨rfl, rfl, rfl⟩

/-- C9 amended: after binding any list of parameters with pairwise
distinct names into a fresh node, `external_params` is exactly the set
of bound names whose parameter has a non-trivial get — a
`PvParameterAccessor` with callable `on_get`, or a plain
`ParameterAccessor` with a callable getter; rebinding an existing name
can leave a stale entry, so distinctness is required. -/
theorem claim_C9_amended (σ : Type) (bs : List (String × BoundParam σ))
    (hnodup : (bs.map Prod.fst).Nodup) (n : String) :
    n ∈ ((PvBoundTree.mkEmpty (σ := σ) "/").bindList bs).external_params ↔
      ∃ p, alistFind ((PvBoundTree.mkEmpty (σ := σ) "/").bindList bs).bound_params n
          = some p ∧ p.nontrivialGet = true := by
  refine PvBoundTree.bindList_exact σ bs (PvBoundTree.mkEmpty "/") ?_ ?_ hnodup n
  · intro m
    simp [PvBoundTree.mkEmpty, alistFind]
  · intro q _
    simp [PvBoundTree.mkEmpty, alistFind]

/-- Witness for the amended C9 on a concrete two-entry bind list:
the externally-sourced `a` is listed, in agreement with its bound
parameter being non-trivially readable. -/
theorem claim_C9_witness :
    "a" ∈ ((PvBoundTree.mkEmpty (σ := Unit) "/").bindList
        [("a", .pvParam ⟨"a", "A", PyValue.none, some (fun _ => .int 5),
            Option.none, Option.none, .int, false⟩),
         ("b", .pvParam ⟨"b", "B", .int 0, Option.none, Option.none,
            Option.none, .int, false⟩)]).external_params ↔
      ∃ p, alistFind ((PvBoundTree.mkEmpty (σ := Unit) "/").bindList
          [("a", .pvParam ⟨"a", "A", PyValue.none, some (fun _ => .int 5),
              Option.none, Option.none, .int, false⟩),
           ("b", .pvParam ⟨"b", "B", .int 0, Option.none, Option.none,
              Option.none, .int, false⟩)]).bound_params "a" = some p ∧
        p.nontrivialGet = true :=
  claim_C9_amended Unit
    [("a", .pvParam ⟨"a", "A", PyValue.none, some (fun _ => .int 5),
        Option.none, Option.none, .int, false⟩),
     ("b", .pvParam ⟨"b", "B", .int 0, Option.none, Option.none,
        Option.none, .int, false⟩)]
    (by simp) "a"

/-- C7 is refuted for scalar constant leaves: in the concrete built tree
with the single scalar leaf `sub.one = 1`, writing 2 through the
attribute surface succeeds (it is an ordinary instance-attribute
assignment on the bound node), after which the path surface still reads
the stale build-time copy held in the odin tree dict (1) while the
attribute surface reads 2 — a write through one surface is not observed
by the other. -/
theorem claim_C7_counterexample :
    (TreeState.attrSetLeaf (σ := Unit)
        (TreeState.build
          (.sub (.cons "sub" (.sub (.cons "one" (.leafScalar (.int 1)) .nil)) .nil))
          [] ())
        ["sub", "one"] (.int 2) =
      some (.ok
        ⟨.sub (.cons "sub" (.sub (.cons "one" (.leafScalar (.int 1)) .nil)) .nil),
         [], [(["sub", "one"], .int 2)], [], ()⟩)) ∧
    (TreeState.pathGetLeaf (σ := Unit)
        ⟨.sub (.cons "sub" (.sub (.cons "one" (.leafScalar (.int 1)) .nil)) .nil),
         [], [(["sub", "one"], .int 2)], [], ()⟩
        ["sub", "one"] =
      some ("one", .int 1,
        ⟨.sub (.cons "sub" (.sub (.cons "one" (.leafScalar (.int 1)) .nil)) .nil),
         [], [(["sub", "one"], .int 2)], [], ()⟩)) ∧
    (TreeState.attrGetLeaf (σ := Unit)
        ⟨.sub (.cons "sub" (.sub (.cons "one" (.leafScalar (.int 1)) .nil)) .nil),
         [], [(["sub", "one"], .int 2)], [], ()⟩
        ["sub", "one"] =
      some (.int 2,
        ⟨.sub (.cons "sub" (.sub (.cons "one" (.leafScalar (.int 1)) .nil)) .nil),
         [], [(["sub", "one"], .int 2)], [], ()⟩)) :=
  ⟨rfl, rfl, rfl⟩

/-- Reading a cached (no `on_get`) PV accessor leaf through the path
surface returns the cached value wrapped in a record keyed by the leaf
name. -/
theorem TreeState.pathGetLeaf_cached (σ : Type) (s : TreeState σ) (path : List String)
    (id : Nat) (leaf : String) (a : PvParameterAccessor σ) (w : PyValue)
    (hres : s.spec.resolve path = some (.leafAcc id))
    (hlast : path.getLast? = some leaf)
    (hfind : alistFind s.store id = some (.pvParam a))
    (hg : a.on_get = Option.none) (hv : a._value = w) :
    s.pathGetLeaf path =
      some (leaf, w, { s with store := alistUpsert s.store id (.pvParam a) }) := by
  simp [TreeState.pathGetLeaf, hres, hlast, TreeState.storeGet, hfind,
    PvParameterAccessor.get, PvParameterAccessor._get, hg, hv]

/-- Reading a cached (no `on_get`) PV accessor leaf through the
attribute surface returns the cached value. -/
theorem TreeState.attrGetLeaf_cached (σ : Type) (s : TreeState σ) (path : List String)
    (id : Nat) (a : PvParameterAccessor σ) (w : PyValue)
    (hres : s.spec.resolve path = some (.leafAcc id))
    (hfind : alistFind s.store id = some (.pvParam a))
    (hg : a.on_get = Option.none) (hv : a._value = w) :
    s.attrGetLeaf path =
      some (w, { s with store := alistUpsert s.store id (.pvParam a) }) := by
  simp [TreeState.attrGetLeaf, hres, TreeState.storeGet, hfind,
    PvParameterAccessor.get, PvParameterAccessor._get, hg, hv]

/-- C7 amended to accessor leaves: for every leaf bound to an accessor,
the path surface and the attribute surface dereference the same stored
accessor object — a read through either returns the same value and the
same updated state (the path read merely wraps it in a record keyed by
the leaf name) — and a write through either surface is observed by a
subsequent read through the other (shown for `PvParameterAccessor`
leaves with no external getter: attribute write then path read, and
path write then attribute read).  Scalar constant leaves are excluded:
they are duplicated between the two surfaces (see the counterexample). -/
theorem claim_C7_amended :
    (∀ (σ : Type) (s : TreeState σ) (path : List String) (id : Nat) (leaf : String)
       (v : PyValue) (s2 : TreeState σ),
      s.spec.resolve path = some (.leafAcc id) →
      path.getLast? = some leaf →
      s.storeGet id = some (v, s2) →
      s.attrGetLeaf path = some (v, s2) ∧ s.pathGetLeaf path = some (leaf, v, s2)) ∧
    (∀ (σ : Type) (s : TreeState σ) (path : List String) (id : Nat) (leaf : String)
       (a : PvParameterAccessor σ) (v : PyValue),
      s.spec.resolve path = some (.leafAcc id) →
      path.getLast? = some leaf →
      alistFind s.store id = some (.pvParam a) →
      a.on_get = Option.none → a._pv = Option.none →
      ∃ s2, s.attrSetLeaf path v = some (.ok s2) ∧
        ∃ s3, s2.pathGetLeaf path = some (leaf, v, s3)) ∧
    (∀ (σ : Type) (s : TreeState σ) (base : List String) (k : String) (id : Nat)
       (a : PvParameterAccessor σ) (v v2 : PyValue),
      s.spec.resolve (base ++ [k]) = some (.leafAcc id) →
      alistFind s.store id = some (.pvParam a) →
      a.writeable = true → a.on_get = Option.none → a._pv = Option.none →
      PvParameterAccessor.coerceTo a.ptype v = some v2 →
      ∃ s2, s.applyAssign base k v = .ok s2 ∧
        ∃ s3, s2.attrGetLeaf (base ++ [k]) = some (v2, s3)) := by
  refine ⟨?_, ?_, ?_⟩
  · intro σ s path id leaf v s2 hres hlast hget
    constructor
    · simp [TreeState.attrGetLeaf, hres, hget]
    · simp [TreeState.pathGetLeaf, hres, hlast, hget]
  · intro σ s path id leaf a v hres hlast hfind hg hpv
    have hset : s.attrSetLeaf path v =
        some (.ok { s with
          store := alistUpsert s.store id (.pvParam (a._set v s.ext).1),
          ext := (a._set v s.ext).2 }) := by
      simp [TreeState.attrSetLeaf, hres, hfind]
    refine ⟨_, hset, ?_⟩
    have hval : ((a._set v s.ext).1)._value = v := by
      simp [PvParameterAccessor._set, hpv, PvParameterAccessor.inner_set]
    have hg2 : ((a._set v s.ext).1).on_get = Option.none := by
      simp [PvParameterAccessor._set, hpv, PvParameterAccessor.inner_set, hg]
    exact ⟨_, TreeState.pathGetLeaf_cached σ _ path id leaf _ v hres hlast
      (alistFind_upsert_self _ _ _) hg2 hval⟩
  · intro σ s base k id a v v2 hres hfind hw hg hpv hc
    have happ : s.applyAssign base k v = .ok { s with
        store := alistUpsert s.store id (.pvParam (a._set v2 s.ext).1),
        ext := (a._set v2 s.ext).2 } := by
      simp [TreeState.applyAssign, hres, hfind, PvParameterAccessor.set, hw, hc]
    refine ⟨_, happ, ?_⟩
    have hval : ((a._set v2 s.ext).1)._value = v2 := by
      simp [PvParameterAccessor._set, hpv, PvParameterAccessor.inner_set]
    have hg2 : ((a._set v2 s.ext).1).on_get = Option.none := by
      simp [PvParameterAccessor._set, hpv, PvParameterAccessor.inner_set, hg]
    exact ⟨_, TreeState.attrGetLeaf_cached σ _ (base ++ [k]) id _ v2 hres
      (alistFind_upsert_self _ _ _) hg2 hval⟩

/-- Witness for the amended C7: in a one-accessor tree the attribute
read and the path read of leaf `p` both return the accessor's cached
value 3 with the same resulting state. -/
theorem claim_C7_amended_witness :
    TreeState.attrGetLeaf (σ := Unit)
      (TreeState.build (.sub (.cons "p" (.leafAcc 0) .nil))
        [(0, .pvParam ⟨"p", "P", .int 3, Option.none, Option.none,
            Option.none, .int, true⟩)] ())
      ["p"] =
      some (.int 3,
        ⟨.sub (.cons "p" (.leafAcc 0) .nil), [], [],
         [(0, .pvParam ⟨"p", "P", .int 3, Option.none, Option.none,
             Option.none, .int, true⟩)], ()⟩) ∧
    TreeState.pathGetLeaf (σ := Unit)
      (TreeState.build (.sub (.cons "p" (.leafAcc 0) .nil))
        [(0, .pvParam ⟨"p", "P", .int 3, Option.none, Option.none,
            Option.none, .int, true⟩)] ())
      ["p"] =
      some ("p", .int 3,
        ⟨.sub (.cons "p" (.leafAcc 0) .nil), [], [],
         [(0, .pvParam ⟨"p", "P", .int 3, Option.none, Option.none,
             Option.none, .int, true⟩)], ()⟩) :=
  claim_C7_amended.1 Unit
    (TreeState.build (.sub (.cons "p" (.leafAcc 0) .nil))
      [(0, .pvParam ⟨"p", "P", .int 3, Option.none, Option.none,
          Option.none, .int, true⟩)] ())
    ["p"] 0 "p" (.int 3)
    ⟨.sub (.cons "p" (.leafAcc 0) .nil), [], [],
     [(0, .pvParam ⟨"p", "P", .int 3, Option.none, Option.none,
         Option.none, .int, true⟩)], ()⟩
    rfl rfl rfl

/-- C8: batch `set(path, data)` is fail-fast and non-transactional.
If applying a prefix of the batch succeeds, producing state `s1`, and
the next assignment fails with error `e` on `s1`, then the whole batch
returns exactly `(s1, e)`: the error is the first failure, none of the
remaining assignments after it is applied, and every assignment of the
already-applied prefix is kept (no rollback). -/
theorem claim_C8 (σ : Type) (s : TreeState σ) (base : List String)
    (pre : List (String × PyValue)) (k : String) (v : PyValue)
    (rest : List (String × PyValue)) (s1 : TreeState σ) (e : TreeError)
    (hpre : s.setBatch base pre = (s1, Option.none))
    (hfail : s1.applyAssign base k v = .error e) :
    s.setBatch base (pre ++ (k, v) :: rest) = (s1, some e) := by
  revert hpre
  induction pre generalizing s with
  | nil =>
      intro hpre
      simp only [TreeState.setBatch, Prod.mk.injEq] at hpre
      obtain ⟨rfl, -⟩ := hpre
      simp [TreeState.setBatch, hfail]
  | cons q pre ih =>
      intro hpre
      obtain ⟨qk, qv⟩ := q
      cases hq : s.applyAssign base qk qv with
      | error e2 =>
          rw [show ((qk, qv) :: pre) = [(qk, qv)] ++ pre from rfl] at hpre
          simp only [TreeState.setBatch, hq, List.singleton_append,
            Prod.mk.injEq] at hpre
          exact absurd hpre.2 (by simp)
      | ok s2 =>
          have hpre2 : s2.setBatch base pre = (s1, Option.none) := by
            simpa only [TreeState.setBatch, hq] using hpre
          simpa only [List.cons_append, TreeState.setBatch, hq] using ih s2 hpre2

/-- Witness for C8, the Scenario-D shape: in a tree with the single
writeable int leaf `one` (initial 0), the batch
`[("one", 1), ("bogus", 2)]` fails with the path-not-found error for
`bogus`, and the already-applied assignment `one = 1` is kept in the
returned state. -/
theorem claim_C8_witness :
    TreeState.setBatch (σ := Unit)
      (TreeState.build (.sub (.cons "one" (.leafAcc 0) .nil))
        [(0, .pvParam ⟨"one", "ONE", .int 0, Option.none, Option.none,
            Option.none, .int, true⟩)] ())
      [] ([("one", .int 1)] ++ ("bogus", .int 2) :: []) =
    (⟨.sub (.cons "one" (.leafAcc 0) .nil), [], [],
      [(0, .pvParam ⟨"one", "ONE", .int 1, Option.none, Option.none,
          Option.none, .int, true⟩)], ()⟩,
     some (.pathNotFound "bogus")) :=
  claim_C8 Unit
    (TreeState.build (.sub (.cons "one" (.leafAcc 0) .nil))
      [(0, .pvParam ⟨"one", "ONE", .int 0, Option.none, Option.none,
          Option.none, .int, true⟩)] ())
    [] [("one", .int 1)] "bogus" (.int 2) []
    ⟨.sub (.cons "one" (.leafAcc 0) .nil), [], [],
     [(0, .pvParam ⟨"one", "ONE", .int 1, Option.none, Option.none,
         Option.none, .int, true⟩)], ()⟩
    (.pathNotFound "bogus") rfl rfl

end OdinSoftioc
